import Mathlib

/-!
Shallow embedding of `ntnx_cluster_handler.py` (NtnxREST repository).

The interactive wizard is modelled as pure functions consuming the list of
console input lines; each `input()` call in the Python source reads one
element.  Running out of input corresponds to Python raising `EOFError`,
a failed `int(...)` conversion to `ValueError`, and a missing dictionary
key to `KeyError`; all three are represented by the `PyError` type and a
result type `Except PyError`.  Python dictionaries that the code builds
keyed by name are modelled as insertion-ordered association lists with
overwrite-on-duplicate semantics (`dictInsert` / `dictLookup`), matching
CPython dict behaviour.  JSON request bodies are modelled by the `Json`
inductive, with object keys listed in the insertion order of the source.
-/

namespace NtnxREST

/-- Exceptions of the Python runtime that the embedded code can raise:
`valueError` for a failed `int(...)` conversion, `keyError` for a missing
dictionary key, `eofError` for `input()` on exhausted input. -/
inductive PyError where
  | valueError
  | keyError
  | eofError
deriving DecidableEq, Repr

/-- JSON values, used for the serialized request bodies.  Object entries are
kept in insertion order. -/
inductive Json where
  | null : Json
  | str : String → Json
  | int : Int → Json
  | bool : Bool → Json
  | arr : List Json → Json
  | obj : List (String × Json) → Json

/-- Lookup of a key in a JSON object (Python `d.get(k)` returning `None`
when `k` is absent is `none` here). -/
def jsonObjLookup (j : Json) (k : String) : Option Json :=
  match j with
  | .obj kvs => (kvs.find? (fun p => p.1 = k)).map Prod.snd
  | _ => none

/-- Python truthiness of a parsed JSON value (`if vms:` in `sync_vm`). -/
def jsonTruthy (j : Json) : Bool :=
  match j with
  | .null => false
  | .str s => !(s = "")
  | .int n => !(n = 0)
  | .bool b => b
  | .arr l => !l.isEmpty
  | .obj l => !l.isEmpty

/-- One CPython-dict assignment `d[k] = v`: overwrite the value in place if
the key exists, otherwise append the new entry at the end. -/
def dictInsert {α : Type} (d : List (String × α)) (k : String) (v : α) :
    List (String × α) :=
  if d.any (fun p => p.1 = k) then
    d.map (fun p => if p.1 = k then (k, v) else p)
  else
    d ++ [(k, v)]

/-- CPython-dict lookup `d[k]` / `k in d`: the (unique) entry with key `k`. -/
def dictLookup {α : Type} (d : List (String × α)) (k : String) : Option α :=
  (d.find? (fun p => p.1 = k)).map Prod.snd

/-- Build a dict from a list of records keyed by a name function, in order
(the loops `for container in self.containers: containers_dict[container["name"]]
= container` and the analogous one for networks). -/
def buildDict {α : Type} (key : α → String) (xs : List α) :
    List (String × α) :=
  xs.foldl (fun d x => dictInsert d (key x) x) []

/-- The fields of a storage-container record that the wizard uses. -/
structure Container where
  name : String
  storage_container_uuid : String
deriving DecidableEq, Repr

/-- The fields of a network record that the wizard uses (`ip_config` is only
displayed, never stored in the spec). -/
structure Network where
  name : String
  uuid : String
  network_address : String
deriving DecidableEq, Repr

/-- `containers_dict` as built at lines 383-386 of `add_vm_disk`. -/
def containersDict (containers : List Container) : List (String × Container) :=
  buildDict (fun c => c.name) containers

/-- `networks_dict` as built at lines 419-422 of `add_vm_nic`. -/
def networksDict (networks : List Network) : List (String × Network) :=
  buildDict (fun n => n.name) networks

/-- The `vm_disk_create` sub-object of a disk (lines 396-398). -/
structure VmDiskCreate where
  storage_container_uuid : String
  size : Int
deriving DecidableEq, Repr

/-- The `vm_disk_dto` dictionary assembled by `add_vm_disk` for one disk.
Field order follows key insertion order in the source; `vm_disk_create` is
an optional key (only assigned at line 406 when the bus is not IDE). -/
structure DiskSpec where
  is_cdrom : Bool
  is_empty : Bool
  is_scsi_pass_through : Bool
  device_bus : String
  vm_disk_create : Option VmDiskCreate
deriving DecidableEq, Repr

/-- The `vm_nic_spec_dto` dictionary assembled by `add_vm_nic` for one NIC.
`requested_ip_address` is an optional key (only assigned at line 448). -/
structure NicSpec where
  uuid : String
  request_ip : Bool
  requested_ip_address : Option String
deriving DecidableEq, Repr

/-- State of `VmConfigModel` (lines 137-145): identity fields set by the
constructor, plus the `vm_disks` and `vm_nics` lists, append-only via
`add_disk` / `add_nic`. -/
structure VmConfigModel where
  vm_name : String
  vm_num_vcpus : Int
  vm_num_cores_per_vcpu : Int
  vm_memory_mb : Int
  vm_disks : List DiskSpec
  vm_nics : List NicSpec
deriving DecidableEq, Repr

/-- `VmConfigModel.add_disk` (lines 165-166): append to `vm_disks`. -/
def VmConfigModel.add_disk (m : VmConfigModel) (d : DiskSpec) : VmConfigModel :=
  { m with vm_disks := m.vm_disks ++ [d] }

/-- `VmConfigModel.add_nic` (lines 168-169): append to `vm_nics`. -/
def VmConfigModel.add_nic (m : VmConfigModel) (n : NicSpec) : VmConfigModel :=
  { m with vm_nics := m.vm_nics ++ [n] }

/-- JSON form of one disk dto, keys in source insertion order:
`is_cdrom`, `is_empty` (first loop), `is_scsi_pass_through` (line 366),
`disk_address` (line 403), and `vm_disk_create` when present (line 406). -/
def diskSpecToJson (d : DiskSpec) : Json :=
  Json.obj
    ([("is_cdrom", Json.bool d.is_cdrom),
      ("is_empty", Json.bool d.is_empty),
      ("is_scsi_pass_through", Json.bool d.is_scsi_pass_through),
      ("disk_address", Json.obj [("device_bus", Json.str d.device_bus)])] ++
      (match d.vm_disk_create with
       | none => []
       | some c =>
         [("vm_disk_create",
           Json.obj [("storage_container_uuid", Json.str c.storage_container_uuid),
                     ("size", Json.int c.size)])]))

/-- JSON form of one NIC dto, keys in source insertion order: `uuid`
(line 433), `request_ip` (line 442/449), `requested_ip_address` when
present (line 448). -/
def nicSpecToJson (n : NicSpec) : Json :=
  Json.obj
    ([("uuid", Json.str n.uuid),
      ("request_ip", Json.bool n.request_ip)] ++
      (match n.requested_ip_address with
       | none => []
       | some a => [("requested_ip_address", Json.str a)]))

/-- The `vm_config_dto` built by `VmConfigModel.sync_vm` (lines 179-186):
the four identity keys, then `vm_disks` only if the disk list is truthy
(non-empty), then `vm_nics` only if the NIC list is truthy. -/
def VmConfigModel.sync_vm_dto (m : VmConfigModel) : Json :=
  let base := [("name", Json.str m.vm_name),
               ("num_vcpus", Json.int m.vm_num_vcpus),
               ("num_cores_per_vcpu", Json.int m.vm_num_cores_per_vcpu),
               ("memory_mb", Json.int m.vm_memory_mb)]
  let withDisks :=
    if m.vm_disks.isEmpty then base
    else base ++ [("vm_disks", Json.arr (m.vm_disks.map diskSpecToJson))]
  let withNics :=
    if m.vm_nics.isEmpty then withDisks
    else withDisks ++ [("vm_nics", Json.arr (m.vm_nics.map nicSpecToJson))]
  Json.obj withNics

/-- HTTP method string constant `POST` of the source (line 16). -/
def POST : String := "post"

/-- Module-level flag `NO_CONN` (line 19): the source ships with offline
mode enabled. -/
def NO_CONN : Bool := true

/-- A POST issued through `NtnxRestApiSession.rest_call` (method, sub-url
appended to the v2 base url, payload). -/
structure PostCall where
  method : String
  sub_url : String
  payload : Json

/-- Observable outcome of the network half of `VmConfigModel.sync_vm`
(lines 194-198): `noCall` when `NO_CONN` suppresses the POST entirely;
otherwise the POST is issued and, depending on the parsed response body
`vms`, the task line is printed (`taskPrinted` carries `vms.get("task_uuid")`),
nothing is printed (falsy body), or `json.loads` inside `rest_call` raised. -/
inductive SyncVmOutcome where
  | noCall
  | taskPrinted (call : PostCall) (taskId : Option Json)
  | noPrint (call : PostCall)
  | raised (call : PostCall) (e : PyError)

set_option linter.unusedVariables false in
/-- The submission part of `VmConfigModel.sync_vm` (lines 194-198).
`noConn` is the `NO_CONN` flag; `restStatus` and `restBody` are the status
code and body-parse result the server interaction would produce.  The
source unpacks `rest_status, vms = self.rest_api.rest_call(...)` and then
only tests `if vms:` — `rest_status` is never inspected. -/
def VmConfigModel.sync_vm (m : VmConfigModel) (noConn : Bool)
    (restStatus : Nat) (restBody : Except PyError Json) : SyncVmOutcome :=
  if noConn then .noCall
  else
    let call : PostCall := ⟨POST, "vms", m.sync_vm_dto⟩
    match restBody with
    | .error e => .raised call e
    | .ok vms =>
      if jsonTruthy vms then .taskPrinted call (jsonObjLookup vms "task_uuid")
      else .noPrint call

/-- Accumulating decimal-digit run: fails on the first non-digit. -/
def digitsAux : Nat → List Char → Option Nat
  | acc, [] => some acc
  | acc, c :: cs =>
    if c.isDigit then digitsAux (acc * 10 + (c.toNat - 48)) cs else none

/-- A non-empty run of decimal digits, as a natural number. -/
def parseNatDigits : List Char → Option Nat
  | [] => none
  | c :: cs => digitsAux 0 (c :: cs)

/-- Decimal integer literal with optional sign. -/
def pyIntCore : List Char → Option Int
  | '-' :: rest => (parseNatDigits rest).map (fun n => -(n : Int))
  | '+' :: rest => (parseNatDigits rest).map (fun n => (n : Int))
  | cs => (parseNatDigits cs).map (fun n => (n : Int))

/-- Python `int(s)`: parse a decimal integer (optional sign, at least one
digit) or raise `ValueError`.  Python additionally tolerates surrounding
whitespace and underscore digit separators, which no claim depends on and
which are not modelled. -/
def pyInt (s : String) : Except PyError Int :=
  match pyIntCore s.data with
  | some n => .ok n
  | none => .error .valueError

/-- Allowed disk bus types, `DISK_TYPE` of the source (line 22). -/
def DISK_TYPE : List String := ["SCSI", "IDE", "PCI"]

/-- `VmCreationController.set_vm_required` (lines 326-345): loop reading
name, vCPU count, cores per vCPU and memory (each numeric read converted
with `int(...)` immediately), then a confirmation; any answer other than
`"Y"` restarts the loop.  On confirmation the `VmConfigModel` is
constructed with empty disk and NIC lists. -/
def set_vm_required : List String → Except PyError (VmConfigModel × List String)
  | [] => .error .eofError
  | vm_name :: rest0 =>
    match rest0 with
    | [] => .error .eofError
    | vcpusStr :: rest1 =>
      match pyInt vcpusStr with
      | .error e => .error e
      | .ok vm_num_vcpus =>
        match rest1 with
        | [] => .error .eofError
        | coresStr :: rest2 =>
          match pyInt coresStr with
          | .error e => .error e
          | .ok vm_num_cores_per_vcpu =>
            match rest2 with
            | [] => .error .eofError
            | memStr :: rest3 =>
              match pyInt memStr with
              | .error e => .error e
              | .ok vm_memory_mb =>
                match rest3 with
                | [] => .error .eofError
                | resp :: rest4 =>
                  if resp = "Y" then
                    .ok ({ vm_name := vm_name, vm_num_vcpus := vm_num_vcpus,
                           vm_num_cores_per_vcpu := vm_num_cores_per_vcpu,
                           vm_memory_mb := vm_memory_mb,
                           vm_disks := [], vm_nics := [] }, rest4)
                  else set_vm_required rest4

/-- First loop of `add_vm_disk` (lines 353-374): read a device bus until it
is a member of `DISK_TYPE` (one line consumed per invalid attempt), then a
confirmation line; any answer other than `"Y"` restarts the loop.  The
loop only exits with the bus entered in its final iteration, in which the
`is_cdrom` / `is_empty` / `is_scsi_pass_through` keys were all (re)set
from that same bus, so returning the bus determines the dto fields. -/
def deviceBusLoop : List String → Except PyError (String × List String)
  | [] => .error .eofError
  | busInput :: rest =>
    if !DISK_TYPE.contains busInput then deviceBusLoop rest
    else
      match rest with
      | [] => .error .eofError
      | resp :: rest2 =>
        if resp = "Y" then .ok (busInput, rest2)
        else deviceBusLoop rest2

/-- Second loop of `add_vm_disk` (lines 377-401): for an IDE bus it breaks
immediately with the still-empty `vm_disk_create_dto` (`none` here).
Otherwise it reads a container name, a size and a confirmation; on any
answer other than `"Y"` it restarts; on `"Y"` it evaluates
`containers_dict[container_name]` — raising `KeyError` when the name is
not a key — and then `int(disk_size) * 1024 * 1024 * 1024`.
`containerSelectGo` is the non-IDE body of that loop. -/
def containerSelectGo (containers : List Container) :
    List String → Except PyError (Option VmDiskCreate × List String)
  | container_name :: disk_size :: container_confirm :: rest =>
    if container_confirm = "Y" then
      match dictLookup (containersDict containers) container_name with
      | none => .error .keyError
      | some c =>
        match pyInt disk_size with
        | .error e => .error e
        | .ok g =>
          .ok (some ⟨c.storage_container_uuid, g * 1024 * 1024 * 1024⟩, rest)
    else containerSelectGo containers rest
  | _ => .error .eofError

/-- The loop of lines 377-401 including its IDE early exit: the `break` for
an IDE bus happens before any read, so the loop reduces to `containerSelectGo`
exactly when the bus is not IDE. -/
def containerSelectLoop (containers : List Container) (device_bus : String)
    (input : List String) : Except PyError (Option VmDiskCreate × List String) :=
  if device_bus = "IDE" then .ok (none, input)
  else containerSelectGo containers input

/-- `VmCreationController.add_vm_disk` (lines 347-409): run the two loops,
assemble `vm_disk_dto` (with `vm_disk_create` attached only when the bus
is not IDE, line 405), and append it to the model via `add_disk`. -/
def add_vm_disk (containers : List Container) (m : VmConfigModel)
    (input : List String) : Except PyError (VmConfigModel × List String) :=
  match deviceBusLoop input with
  | .error e => .error e
  | .ok (device_bus, input1) =>
    match containerSelectLoop containers device_bus input1 with
    | .error e => .error e
    | .ok (createDto, input2) =>
      let vm_disk_dto : DiskSpec :=
        { is_cdrom := device_bus = "IDE",
          is_empty := device_bus = "IDE",
          is_scsi_pass_through := false,
          device_bus := device_bus,
          vm_disk_create := if device_bus = "IDE" then none else createDto }
      .ok (m.add_disk vm_disk_dto, input2)

/-- First loop of `add_vm_nic` (lines 416-439): read a network name and a
confirmation; on `"Y"` the name is looked up — membership IS checked here
(`if network_name in networks_dict`), an unknown name prints a message and
restarts the loop; on any other confirmation answer the loop restarts. -/
def networkSelectLoop (networks : List Network) :
    List String → Except PyError (String × List String)
  | network_name :: network_confirm :: rest =>
    if network_confirm = "Y" then
      match dictLookup (networksDict networks) network_name with
      | some net => .ok (net.uuid, rest)
      | none => networkSelectLoop networks rest
    else networkSelectLoop networks rest
  | _ => .error .eofError

/-- Second loop of `add_vm_nic` (lines 441-454): each iteration resets
`request_ip` to false, then asks whether to request an IP; `"Y"` reads an
address and a confirmation (`"Y"` stores the address and sets `request_ip`
to true, anything else restarts the loop); any other first answer breaks
with `request_ip = false` and no address. -/
def requestIpLoop : List String → Except PyError ((Bool × Option String) × List String)
  | [] => .error .eofError
  | network_confirm :: rest =>
    if network_confirm = "Y" then
      match rest with
      | request_ip_address :: ip_address_confirm :: rest2 =>
        if ip_address_confirm = "Y" then .ok ((true, some request_ip_address), rest2)
        else requestIpLoop rest2
      | _ => .error .eofError
    else .ok ((false, none), rest)

/-- `VmCreationController.add_vm_nic` (lines 411-457): run the two loops,
assemble `vm_nic_spec_dto`, and append it to the model via `add_nic`. -/
def add_vm_nic (networks : List Network) (m : VmConfigModel)
    (input : List String) : Except PyError (VmConfigModel × List String) :=
  match networkSelectLoop networks input with
  | .error e => .error e
  | .ok (uuid, input1) =>
    match requestIpLoop input1 with
    | .error e => .error e
    | .ok ((request_ip, requested_ip_address), input2) =>
      let vm_nic_spec_dto : NicSpec :=
        { uuid := uuid, request_ip := request_ip,
          requested_ip_address := requested_ip_address }
      .ok (m.add_nic vm_nic_spec_dto, input2)

/-- `VmCreationController.confirm_vm_creation` (lines 299-324): after
printing the accumulated spec, returns true exactly when the response is
the literal string `"Y"`. -/
def confirm_vm_creation (response : String) : Bool :=
  response = "Y"

/-- Outcome of the tail of `create_vm` (lines 294-297): `submitted` means
`sync_vm` was invoked on the accumulated dto (the request-body build and
POST path); `notCreated` means the spec was dropped without `sync_vm`. -/
inductive CreateVmOutcome where
  | submitted (dto : Json)
  | notCreated

/-- The final step of `create_vm` (lines 294-297): on a confirmed spec call
`sync_vm` (which builds `sync_vm_dto` and would POST it), otherwise print
that the VM is not created and discard the model. -/
def vm_creation_finalize (m : VmConfigModel) (response : String) : CreateVmOutcome :=
  if confirm_vm_creation response then .submitted m.sync_vm_dto else .notCreated

/-! ### Dictionary lemmas -/

theorem find?_map_overwrite {α : Type} (d : List (String × α)) (k : String) (v : α)
    (hany : d.any (fun p => p.1 = k) = true) :
    (d.map (fun p => if p.1 = k then (k, v) else p)).find? (fun p => p.1 = k)
      = some (k, v) := by
  induction d with
  | nil => simp at hany
  | cons p d ih =>
    by_cases hp : p.1 = k
    · simp [List.find?, hp]
    · simp only [List.any_cons, Bool.or_eq_true, decide_eq_true_eq] at hany
      rcases hany with h | h
      · exact absurd h hp
      · simpa [List.find?, hp] using ih h

theorem find?_map_ne {α : Type} (d : List (String × α)) (k k2 : String) (v : α)
    (hne : k2 ≠ k) :
    (d.map (fun p => if p.1 = k then (k, v) else p)).find? (fun p => p.1 = k2)
      = d.find? (fun p => p.1 = k2) := by
  induction d with
  | nil => rfl
  | cons p d ih =>
    by_cases hp : p.1 = k
    · have hp2 : ¬p.1 = k2 := by rw [hp]; exact fun h => hne h.symm
      simpa [List.find?, hp, Ne.symm hne, hp2] using ih
    · by_cases hp2 : p.1 = k2
      · simp [List.find?, hp, hp2, hne]
      · simpa [List.find?, hp, hp2] using ih

theorem dictLookup_dictInsert {α : Type} (d : List (String × α)) (k k2 : String)
    (v : α) :
    dictLookup (dictInsert d k v) k2
      = if k2 = k then some v else dictLookup d k2 := by
  unfold dictInsert dictLookup
  by_cases hany : d.any (fun p => p.1 = k)
  · simp only [hany, if_true]
    by_cases hk : k2 = k
    · subst hk
      rw [find?_map_overwrite d k2 v hany]
      simp
    · rw [find?_map_ne d k k2 v hk]
      simp [hk]
  · simp only [hany, if_false, List.find?_append]
    by_cases hk : k2 = k
    · subst hk
      have hnone : d.find? (fun p => p.1 = k2) = none := by
        rw [List.find?_eq_none]
        intro x hx hpx
        exact hany (List.any_eq_true.mpr ⟨x, hx, hpx⟩)
      simp [hnone, List.find?]
    · have hk2 : ¬k = k2 := fun h => hk h.symm
      have hone : ([(k, v)] : List (String × α)).find? (fun p => p.1 = k2) = none := by
        simp [List.find?, hk2]
      simp [hone, hk]

/-- Name-keyed dict building resolves each name to the LAST record with that
name in the source order: the lookup equals `find?` over the reversed list. -/
theorem dictLookup_buildDict {α : Type} (key : α → String) (xs : List α)
    (k : String) :
    dictLookup (buildDict key xs) k = xs.reverse.find? (fun x => key x = k) := by
  induction xs using List.reverseRecOn with
  | nil => rfl
  | append_singleton xs x ih =>
    have hfold : buildDict key (xs ++ [x]) = dictInsert (buildDict key xs) (key x) x := by
      unfold buildDict
      rw [List.foldl_append]
      rfl
    rw [hfold, dictLookup_dictInsert, List.reverse_append]
    by_cases h : key x = k
    · simp [List.find?, h]
    · have h2 : ¬k = key x := fun hh => h hh.symm
      simp [List.find?, h, h2, ih]

/-! ### Loop characterization lemmas -/

/-- A successful non-IDE container selection always returns a populated
`vm_disk_create_dto`: some looked-up container uuid and a size of the form
`g * 1024 * 1024 * 1024` for the parsed size entry `g`. -/
theorem containerSelectGo_ok {containers : List Container}
    {input rest : List String} {o : Option VmDiskCreate}
    (h : containerSelectGo containers input = .ok (o, rest)) :
    ∃ cname c g, dictLookup (containersDict containers) cname = some c ∧
      o = some ⟨c.storage_container_uuid, g * 1024 * 1024 * 1024⟩ := by
  induction input using containerSelectGo.induct containers with
  | case1 container_name disk_size rest h1 =>
    simp [containerSelectGo, h1] at h
  | case2 container_name disk_size rest c h1 e h2 =>
    simp [containerSelectGo, h1, h2] at h
  | case3 container_name disk_size rest c h1 g h2 =>
    simp [containerSelectGo, h1, h2] at h
    exact ⟨container_name, c, g, h1, h.1.symm⟩
  | case4 container_name disk_size container_confirm rest hconf ih =>
    simp [containerSelectGo, hconf] at h
    exact ih h
  | case5 t hshape =>
    rcases t with _ | ⟨a, _ | ⟨b, _ | ⟨c, rest2⟩⟩⟩
    · simp [containerSelectGo] at h
    · simp [containerSelectGo] at h
    · simp [containerSelectGo] at h
    · exact absurd rfl (hshape a b c rest2)

/-- For an IDE bus, the container-selection loop exits at once, with the
empty `vm_disk_create_dto` and the input untouched. -/
theorem containerSelectLoop_IDE (containers : List Container)
    (input : List String) :
    containerSelectLoop containers "IDE" input = .ok (none, input) := by
  simp [containerSelectLoop]

/-- For a non-IDE bus, a successful container selection yields a populated
create dto. -/
theorem containerSelectLoop_ok {containers : List Container}
    {device_bus : String} {input rest : List String} {o : Option VmDiskCreate}
    (hbus : device_bus ≠ "IDE")
    (h : containerSelectLoop containers device_bus input = .ok (o, rest)) :
    ∃ cname c g, dictLookup (containersDict containers) cname = some c ∧
      o = some ⟨c.storage_container_uuid, g * 1024 * 1024 * 1024⟩ := by
  rw [containerSelectLoop, if_neg hbus] at h
  exact containerSelectGo_ok h

/-- A successful run of the request-IP loop yields either a requested
address together with `request_ip = true`, or no address and
`request_ip = false`. -/
theorem requestIpLoop_ok {input rest : List String} {b : Bool}
    {a : Option String} (h : requestIpLoop input = .ok ((b, a), rest)) :
    (b = true ∧ ∃ ip, a = some ip) ∨ (b = false ∧ a = none) := by
  induction input using requestIpLoop.induct with
  | case1 => simp [requestIpLoop] at h
  | case2 ip rest2 =>
    simp [requestIpLoop] at h
    obtain ⟨⟨hb, ha⟩, -⟩ := h
    exact Or.inl ⟨hb, ip, ha.symm⟩
  | case3 ip conf rest2 hconf ih =>
    simp [requestIpLoop, hconf] at h
    exact ih h
  | case4 rest4 hshape =>
    rcases rest4 with _ | ⟨ip, _ | ⟨conf, rest2⟩⟩
    · simp [requestIpLoop] at h
    · simp [requestIpLoop] at h
    · exact absurd rfl (hshape ip conf rest2)
  | case5 resp rest4 hresp =>
    rw [requestIpLoop.eq_def] at h
    simp [hresp] at h
    obtain ⟨⟨hb, ha⟩, -⟩ := h
    exact Or.inr ⟨hb, ha.symm⟩

/-! ### Input-consumption bounds (loops never un-read input) -/

theorem deviceBusLoop_le {input rest : List String} {bus : String}
    (h : deviceBusLoop input = .ok (bus, rest)) :
    rest.length ≤ input.length := by
  induction input using deviceBusLoop.induct with
  | case1 =>
    rw [deviceBusLoop.eq_def] at h
    simp at h
  | case2 resp rest4 hvalid ih =>
    have hmem : ¬resp ∈ DISK_TYPE := by simpa using hvalid
    rw [deviceBusLoop.eq_def] at h
    simp [hmem] at h
    exact (ih h).trans (by simp)
  | case3 resp hvalid =>
    have hmem : resp ∈ DISK_TYPE := by simpa using hvalid
    rw [deviceBusLoop.eq_def] at h
    simp [hmem] at h
  | case4 resp hvalid rest4 =>
    have hmem : resp ∈ DISK_TYPE := by simpa using hvalid
    rw [deviceBusLoop.eq_def] at h
    simp [hmem] at h
    obtain ⟨-, hrest⟩ := h
    subst hrest
    simp only [List.length_cons]
    omega
  | case5 resp hvalid resp2 rest4 hresp ih =>
    have hmem : resp ∈ DISK_TYPE := by simpa using hvalid
    rw [deviceBusLoop.eq_def] at h
    simp [hmem, hresp] at h
    exact (ih h).trans (by simp only [List.length_cons]; omega)

theorem containerSelectGo_le {containers : List Container}
    {input rest : List String} {o : Option VmDiskCreate}
    (h : containerSelectGo containers input = .ok (o, rest)) :
    rest.length ≤ input.length := by
  induction input using containerSelectGo.induct containers with
  | case1 container_name disk_size rest2 h1 =>
    simp [containerSelectGo, h1] at h
  | case2 container_name disk_size rest2 c h1 e h2 =>
    simp [containerSelectGo, h1, h2] at h
  | case3 container_name disk_size rest2 c h1 g h2 =>
    simp [containerSelectGo, h1, h2] at h
    simp [h.2]
    omega
  | case4 container_name disk_size container_confirm rest2 hconf ih =>
    simp [containerSelectGo, hconf] at h
    exact (ih h).trans (by simp; omega)
  | case5 t hshape =>
    rcases t with _ | ⟨a, _ | ⟨b, _ | ⟨c, rest2⟩⟩⟩
    · simp [containerSelectGo] at h
    · simp [containerSelectGo] at h
    · simp [containerSelectGo] at h
    · exact absurd rfl (hshape a b c rest2)

theorem containerSelectLoop_le {containers : List Container}
    {device_bus : String} {input rest : List String} {o : Option VmDiskCreate}
    (h : containerSelectLoop containers device_bus input = .ok (o, rest)) :
    rest.length ≤ input.length := by
  unfold containerSelectLoop at h
  by_cases hbus : device_bus = "IDE"
  · rw [if_pos hbus] at h
    simp at h
    simp [h.2]
  · rw [if_neg hbus] at h
    exact containerSelectGo_le h

theorem add_vm_disk_le {containers : List Container} {m m2 : VmConfigModel}
    {input rest : List String}
    (h : add_vm_disk containers m input = .ok (m2, rest)) :
    rest.length ≤ input.length := by
  unfold add_vm_disk at h
  split at h
  · simp at h
  · rename_i bus input1 hbus
    split at h
    · simp at h
    · rename_i o input2 hsel
      simp only [Except.ok.injEq, Prod.mk.injEq] at h
      obtain ⟨-, hrest⟩ := h
      subst hrest
      exact (containerSelectLoop_le hsel).trans (deviceBusLoop_le hbus)

theorem networkSelectLoop_le {networks : List Network}
    {input rest : List String} {uuid : String}
    (h : networkSelectLoop networks input = .ok (uuid, rest)) :
    rest.length ≤ input.length := by
  induction input using networkSelectLoop.induct networks with
  | case1 network_name rest2 net h1 =>
    simp [networkSelectLoop, h1] at h
    simp [h.2]
    omega
  | case2 network_name rest2 h1 ih =>
    simp [networkSelectLoop, h1] at h
    exact (ih h).trans (by simp; omega)
  | case3 network_name network_confirm rest2 hconf ih =>
    simp [networkSelectLoop, hconf] at h
    exact (ih h).trans (by simp; omega)
  | case4 t hshape =>
    rcases t with _ | ⟨a, _ | ⟨b, rest2⟩⟩
    · simp [networkSelectLoop] at h
    · simp [networkSelectLoop] at h
    · exact absurd rfl (hshape a b rest2)

theorem requestIpLoop_le {input rest : List String} {r : Bool × Option String}
    (h : requestIpLoop input = .ok (r, rest)) :
    rest.length ≤ input.length := by
  induction input using requestIpLoop.induct with
  | case1 =>
    rw [requestIpLoop.eq_def] at h
    simp at h
  | case2 ip rest2 =>
    rw [requestIpLoop.eq_def] at h
    simp at h
    obtain ⟨-, hrest⟩ := h
    subst hrest
    simp only [List.length_cons]
    omega
  | case3 ip conf rest2 hconf ih =>
    rw [requestIpLoop.eq_def] at h
    simp [hconf] at h
    exact (ih h).trans (by simp only [List.length_cons]; omega)
  | case4 rest4 hshape =>
    rcases rest4 with _ | ⟨ip, _ | ⟨conf, rest2⟩⟩
    · rw [requestIpLoop.eq_def] at h
      simp at h
    · rw [requestIpLoop.eq_def] at h
      simp at h
    · exact absurd rfl (hshape ip conf rest2)
  | case5 resp rest4 hresp =>
    rw [requestIpLoop.eq_def] at h
    simp [hresp] at h
    obtain ⟨-, hrest⟩ := h
    subst hrest
    simp only [List.length_cons]
    omega

theorem add_vm_nic_le {networks : List Network} {m m2 : VmConfigModel}
    {input rest : List String}
    (h : add_vm_nic networks m input = .ok (m2, rest)) :
    rest.length ≤ input.length := by
  unfold add_vm_nic at h
  split at h
  · simp at h
  · rename_i uuid input1 hsel
    split at h
    · simp at h
    · rename_i request_ip requested_ip_address input2 hip
      simp only [Except.ok.injEq, Prod.mk.injEq] at h
      obtain ⟨-, hrest⟩ := h
      subst hrest
      exact (requestIpLoop_le hip).trans (networkSelectLoop_le hsel)

/-! ### The full `create_vm` wizard (lines 265-297) -/

set_option linter.unusedVariables false in
/-- The disk-add loop of `create_vm` (lines 272-281): read the yes/no line;
`"Y"` runs the disk sub-wizard and loops, anything else breaks. -/
def diskAddLoop (containers : List Container) (m : VmConfigModel) :
    List String → Except PyError (VmConfigModel × List String)
  | [] => .error .eofError
  | response :: rest =>
    if response = "Y" then
      match hdisk : add_vm_disk containers m rest with
      | .error e => .error e
      | .ok (m2, rest2) => diskAddLoop containers m2 rest2
    else .ok (m, rest)
  termination_by input => input.length
  decreasing_by
    have hle := add_vm_disk_le hdisk
    simp only [List.length_cons]
    omega

set_option linter.unusedVariables false in
/-- The NIC-add loop of `create_vm` (lines 283-292). -/
def nicAddLoop (networks : List Network) (m : VmConfigModel) :
    List String → Except PyError (VmConfigModel × List String)
  | [] => .error .eofError
  | response :: rest =>
    if response = "Y" then
      match hnic : add_vm_nic networks m rest with
      | .error e => .error e
      | .ok (m2, rest2) => nicAddLoop networks m2 rest2
    else .ok (m, rest)
  termination_by input => input.length
  decreasing_by
    have hle := add_vm_nic_le hnic
    simp only [List.length_cons]
    omega

/-- `VmCreationController.create_vm` (lines 265-297): required fields, the
disk-add loop, the NIC-add loop, then the final confirmation read by
`confirm_vm_creation` deciding between `sync_vm` and dropping the spec.
Any Python exception raised along the way propagates out unhandled. -/
def create_vm (containers : List Container) (networks : List Network)
    (input : List String) : Except PyError (CreateVmOutcome × List String) :=
  match set_vm_required input with
  | .error e => .error e
  | .ok (m, input1) =>
    match diskAddLoop containers m input1 with
    | .error e => .error e
    | .ok (m1, input2) =>
      match nicAddLoop networks m1 input2 with
      | .error e => .error e
      | .ok (m2, input3) =>
        match input3 with
        | [] => .error .eofError
        | response :: rest => .ok (vm_creation_finalize m2 response, rest)

/-- Observable fate of the process after `main_loop` dispatches option 5
(lines 501-510): the `try` block catches any exception from `create_vm`,
prints it and terminates the process with `exit(1)`; otherwise control
returns to the menu loop. -/
inductive ProcessOutcome where
  | exited (code : Nat)
  | menu (outcome : CreateVmOutcome) (rest : List String)

/-- `MainMenu.main_loop` handling of menu choice `"5"` (line 501-502)
under the surrounding `try`/`except` (lines 473, 508-510). -/
def main_loop_create_vm (containers : List Container) (networks : List Network)
    (input : List String) : ProcessOutcome :=
  match create_vm containers networks input with
  | .error _ => .exited 1
  | .ok (o, rest) => .menu o rest

/-! ### Concrete fixtures for witnesses and counterexamples -/

/-- Container fixture: name `ctr-1`, uuid `c-uuid-1`. -/
def sampleContainer : Container := ⟨"ctr-1", "c-uuid-1"⟩

/-- Network fixture: name `net1`. -/
def sampleNetwork : Network := ⟨"net1", "n-uuid-1", "10.0.0.0"⟩

/-- Freshly constructed model for VM `web01`, 2 vCPUs, 1 core per vCPU,
4096 MB, no disks, no NICs. -/
def sampleVm : VmConfigModel := ⟨"web01", 2, 1, 4096, [], []⟩

/-- The disk dto produced for an IDE selection. -/
def sampleIdeDisk : DiskSpec := ⟨true, true, false, "IDE", none⟩

/-! ### Claim theorems -/

/-- C10: in both the container and network selection steps, the name-keyed
dict resolves each name to the record occurring LAST in the fetched order
(later records overwrite earlier ones), so earlier records with a
duplicated name cannot be selected; concretely, with two containers both
named `dup`, lookup returns the second. -/
theorem name_selection_last_wins :
    (∀ (containers : List Container) (name : String),
      dictLookup (containersDict containers) name
        = containers.reverse.find? (fun c => c.name = name)) ∧
    (∀ (networks : List Network) (name : String),
      dictLookup (networksDict networks) name
        = networks.reverse.find? (fun n => n.name = name)) ∧
    dictLookup (containersDict [⟨"dup", "u1"⟩, ⟨"dup", "u2"⟩]) "dup"
      = some ⟨"dup", "u2"⟩ := by
  refine ⟨fun containers name => ?_, fun networks name => ?_, ?_⟩
  · exact dictLookup_buildDict (fun c => c.name) containers name
  · exact dictLookup_buildDict (fun n => n.name) networks name
  · rfl

/-- C5: at the final confirmation, any response other than the literal
token `"Y"` is a decline; on decline `sync_vm` is not invoked (so no POST
is built or issued) and the accumulated spec is dropped. -/
theorem confirm_decline_blocks_submission (m : VmConfigModel)
    (response : String) (h : response ≠ "Y") :
    confirm_vm_creation response = false ∧
    vm_creation_finalize m response = .notCreated := by
  simp [confirm_vm_creation, vm_creation_finalize, h]

/-- Witness for C5 at the lowercase response `"y"`: even a case-variant of
the affirmative token is a decline. -/
theorem confirm_decline_blocks_submission_witness :
    ("y" ≠ "Y") ∧
    (confirm_vm_creation "y" = false ∧
      vm_creation_finalize sampleVm "y" = .notCreated) :=
  ⟨by decide, confirm_decline_blocks_submission sampleVm "y" (by decide)⟩

set_option linter.unusedVariables false in
/-- C8: a confirmed disk-size entry whose text parses to the integer `g > 0`
produces a `vm_disk_create` byte size of exactly `g * 1073741824`.  The
positivity hypothesis mirrors the claimed range; the conversion itself does
not depend on it. -/
theorem disk_size_gb_conversion (containers : List Container)
    (device_bus cname s : String) (g : Int) (rest : List String)
    (c : Container)
    (hbus : device_bus ≠ "IDE")
    (hc : dictLookup (containersDict containers) cname = some c)
    (hs : pyInt s = .ok g) (hg : 0 < g) :
    containerSelectLoop containers device_bus (cname :: s :: "Y" :: rest)
      = .ok (some ⟨c.storage_container_uuid, g * 1073741824⟩, rest) := by
  rw [containerSelectLoop, if_neg hbus, containerSelectGo.eq_def]
  simp only [if_pos rfl, hc, hs]
  have hmul : g * 1024 * 1024 * 1024 = g * 1073741824 := by ring
  rw [hmul]
  simp

/-- Witness for C8, the 50 GB scenario: container `ctr-1` (uuid `c-uuid-1`)
and size entry `"50"` give `vm_disk_create = (c-uuid-1, 53687091200)`. -/
theorem disk_size_gb_conversion_witness :
    ("SCSI" : String) ≠ "IDE" ∧
    dictLookup (containersDict [sampleContainer]) "ctr-1" = some sampleContainer ∧
    pyInt "50" = .ok 50 ∧ (0 : Int) < 50 ∧
    containerSelectLoop [sampleContainer] "SCSI" ["ctr-1", "50", "Y"]
      = .ok (some ⟨"c-uuid-1", 53687091200⟩, []) :=
  ⟨by decide, rfl, rfl, by decide,
    disk_size_gb_conversion [sampleContainer] "SCSI" "ctr-1" "50" 50 []
      sampleContainer (by decide) rfl rfl (by decide)⟩

/-- C3: the serialized body always carries the four identity keys with the
model's values; `vm_disks` / `vm_nics` are present exactly when the
respective sequence is non-empty, and then hold the elements in append
order; the `web01` spec with no disks and no NICs serializes to exactly
the four-key object. -/
theorem sync_vm_dto_serialization (m : VmConfigModel) :
    jsonObjLookup m.sync_vm_dto "name" = some (.str m.vm_name) ∧
    jsonObjLookup m.sync_vm_dto "num_vcpus" = some (.int m.vm_num_vcpus) ∧
    jsonObjLookup m.sync_vm_dto "num_cores_per_vcpu"
      = some (.int m.vm_num_cores_per_vcpu) ∧
    jsonObjLookup m.sync_vm_dto "memory_mb" = some (.int m.vm_memory_mb) ∧
    jsonObjLookup m.sync_vm_dto "vm_disks"
      = (if m.vm_disks.isEmpty then none
         else some (.arr (m.vm_disks.map diskSpecToJson))) ∧
    jsonObjLookup m.sync_vm_dto "vm_nics"
      = (if m.vm_nics.isEmpty then none
         else some (.arr (m.vm_nics.map nicSpecToJson))) ∧
    (VmConfigModel.mk "web01" 2 1 4096 [] []).sync_vm_dto
      = Json.obj [("name", .str "web01"), ("num_vcpus", .int 2),
                  ("num_cores_per_vcpu", .int 1), ("memory_mb", .int 4096)] := by
  obtain ⟨name, vcpus, cores, mem, disks, nics⟩ := m
  refine ⟨?_, ?_, ?_, ?_, ?_, ?_, rfl⟩ <;>
    cases disks <;> cases nics <;>
      simp [VmConfigModel.sync_vm_dto, jsonObjLookup, List.find?]

/-- C1: every disk the disk sub-wizard appends satisfies: `vm_disk_create`
is present iff the device bus is not IDE, and an IDE disk is an empty
CD-ROM placeholder (`is_cdrom = true`, `is_empty = true`) without a
`vm_disk_create` key. -/
theorem add_vm_disk_create_iff_not_ide (containers : List Container)
    (m : VmConfigModel) (input : List String) (m2 : VmConfigModel)
    (rest : List String) (h : add_vm_disk containers m input = .ok (m2, rest)) :
    ∃ d : DiskSpec, m2.vm_disks = m.vm_disks ++ [d] ∧
      (d.vm_disk_create.isSome ↔ d.device_bus ≠ "IDE") ∧
      (d.device_bus = "IDE" →
        d.is_cdrom = true ∧ d.is_empty = true ∧ d.vm_disk_create = none) := by
  unfold add_vm_disk at h
  split at h
  · simp at h
  · rename_i bus input1 hbus
    split at h
    · simp at h
    · rename_i o input2 hsel
      simp only [Except.ok.injEq, Prod.mk.injEq] at h
      obtain ⟨hm2, -⟩ := h
      subst hm2
      refine ⟨_, rfl, ?_, ?_⟩
      · by_cases hb : bus = "IDE"
        · simp [hb]
        · obtain ⟨cname, c, g, -, ho⟩ := containerSelectLoop_ok hb hsel
          simp [hb, ho]
      · intro hIDE
        simp only at hIDE
        simp [hIDE]

/-- Witness for C1: one IDE disk added to the fresh `web01` model (the
IDE scenario with its CD-ROM placeholder shape). -/
theorem add_vm_disk_create_iff_not_ide_witness :
    ∃ d : DiskSpec,
      (VmConfigModel.mk "web01" 2 1 4096 [sampleIdeDisk] []).vm_disks
        = sampleVm.vm_disks ++ [d] ∧
      (d.vm_disk_create.isSome ↔ d.device_bus ≠ "IDE") ∧
      (d.device_bus = "IDE" →
        d.is_cdrom = true ∧ d.is_empty = true ∧ d.vm_disk_create = none) :=
  add_vm_disk_create_iff_not_ide [sampleContainer] sampleVm ["IDE", "Y"]
    (VmConfigModel.mk "web01" 2 1 4096 [sampleIdeDisk] []) [] rfl

/-- C2: every NIC the nic sub-wizard appends satisfies:
`requested_ip_address` is present iff `request_ip` is true. -/
theorem add_vm_nic_requested_ip_iff (networks : List Network)
    (m : VmConfigModel) (input : List String) (m2 : VmConfigModel)
    (rest : List String) (h : add_vm_nic networks m input = .ok (m2, rest)) :
    ∃ n : NicSpec, m2.vm_nics = m.vm_nics ++ [n] ∧
      (n.requested_ip_address.isSome ↔ n.request_ip = true) := by
  unfold add_vm_nic at h
  split at h
  · simp at h
  · rename_i uuid input1 hsel
    split at h
    · simp at h
    · rename_i request_ip requested_ip_address input2 hip
      simp only [Except.ok.injEq, Prod.mk.injEq] at h
      obtain ⟨hm2, -⟩ := h
      subst hm2
      refine ⟨_, rfl, ?_⟩
      rcases requestIpLoop_ok hip with ⟨hb, ip, ha⟩ | ⟨hb, ha⟩ <;> simp [hb, ha]

/-- Witness for C2: one NIC on network `net1` added with the IP request
declined (`request_ip = false`, no requested address). -/
theorem add_vm_nic_requested_ip_iff_witness :
    ∃ n : NicSpec,
      (VmConfigModel.mk "web01" 2 1 4096 []
          [NicSpec.mk "n-uuid-1" false none]).vm_nics
        = sampleVm.vm_nics ++ [n] ∧
      (n.requested_ip_address.isSome ↔ n.request_ip = true) :=
  add_vm_nic_requested_ip_iff [sampleNetwork] sampleVm ["net1", "Y", "N"]
    (VmConfigModel.mk "web01" 2 1 4096 [] [NicSpec.mk "n-uuid-1" false none])
    [] rfl

/-- An unknown network name whose confirmation is answered `"Y"` makes the
selection loop print a rejection and re-run on the remaining input. -/
theorem networkSelectLoop_unknown (networks : List Network)
    (network_name : String) (rest : List String)
    (h : dictLookup (networksDict networks) network_name = none) :
    networkSelectLoop networks (network_name :: "Y" :: rest)
      = networkSelectLoop networks rest := by
  rw [networkSelectLoop.eq_def]
  simp [h]

/-- C4 counterexample: in the DISK sub-wizard, an unknown container name
confirmed with `"Y"` is NOT rejected with a re-prompt — the lookup
`containers_dict[container_name]` raises `KeyError`, and inside the full
wizard this aborts `create_vm` and terminates the process via the main
loop handler. -/
theorem unknown_container_name_keyerror_cex :
    add_vm_disk [sampleContainer] sampleVm ["SCSI", "Y", "nope", "10", "Y"]
      = .error .keyError ∧
    main_loop_create_vm [sampleContainer] [sampleNetwork]
      ["web01", "2", "1", "4096", "Y", "Y", "SCSI", "Y", "nope", "10", "Y"]
      = .exited 1 := by
  refine ⟨rfl, ?_⟩
  have hreq : set_vm_required
      ["web01", "2", "1", "4096", "Y", "Y", "SCSI", "Y", "nope", "10", "Y"]
      = .ok (sampleVm, ["Y", "SCSI", "Y", "nope", "10", "Y"]) := rfl
  have hdisk : add_vm_disk [sampleContainer] sampleVm
      ["SCSI", "Y", "nope", "10", "Y"] = .error .keyError := rfl
  have hloop : diskAddLoop [sampleContainer] sampleVm
      ["Y", "SCSI", "Y", "nope", "10", "Y"] = .error .keyError := by
    rw [diskAddLoop.eq_def]
    dsimp only
    rw [if_pos rfl]
    split
    · rename_i e heq
      rw [hdisk] at heq
      cases heq
      rfl
    · rename_i m2 rest2 heq
      rw [hdisk] at heq
      cases heq
  unfold main_loop_create_vm create_vm
  rw [hreq]
  simp only [hloop]

/-- C4 (amended): the NIC sub-wizard rejects an unknown network name with a
re-prompt of the same step, leaving the model untouched by the rejected
attempt; the DISK sub-wizard has no such membership check — an unknown
container name confirmed with `"Y"` raises `KeyError`, so no disk is
appended and no re-prompt occurs (the exception propagates out of the
wizard). -/
theorem selection_unknown_name_behavior :
    (∀ (networks : List Network) (m : VmConfigModel) (network_name : String)
        (rest : List String),
      dictLookup (networksDict networks) network_name = none →
      add_vm_nic networks m (network_name :: "Y" :: rest)
        = add_vm_nic networks m rest) ∧
    (∀ (containers : List Container) (m : VmConfigModel)
        (device_bus cname ds : String) (rest : List String),
      device_bus ∈ DISK_TYPE → device_bus ≠ "IDE" →
      dictLookup (containersDict containers) cname = none →
      add_vm_disk containers m
          (device_bus :: "Y" :: cname :: ds :: "Y" :: rest)
        = .error .keyError) := by
  constructor
  · intro networks m network_name rest h
    unfold add_vm_nic
    rw [networkSelectLoop_unknown networks network_name rest h]
  · intro containers m device_bus cname ds rest hmem hbus h
    unfold add_vm_disk
    have hdev : deviceBusLoop (device_bus :: "Y" :: cname :: ds :: "Y" :: rest)
        = .ok (device_bus, cname :: ds :: "Y" :: rest) := by
      rw [deviceBusLoop.eq_def]
      simp [hmem]
    have hsel : containerSelectLoop containers device_bus
        (cname :: ds :: "Y" :: rest) = .error .keyError := by
      rw [containerSelectLoop, if_neg hbus, containerSelectGo.eq_def]
      simp [h]
    simp only [hdev, hsel]

/-- Witness for C4 (amended): rejected unknown network name `bogus` versus
the crashing unknown container name `nope`. -/
theorem selection_unknown_name_behavior_witness :
    dictLookup (networksDict [sampleNetwork]) "bogus" = none ∧
    add_vm_nic [sampleNetwork] sampleVm ("bogus" :: "Y" :: ["net1", "Y", "N"])
      = add_vm_nic [sampleNetwork] sampleVm ["net1", "Y", "N"] ∧
    add_vm_disk [sampleContainer] sampleVm
        ("SCSI" :: "Y" :: "nope" :: "10" :: "Y" :: [])
      = .error .keyError :=
  ⟨rfl,
    selection_unknown_name_behavior.1 [sampleNetwork] sampleVm "bogus"
      ["net1", "Y", "N"] rfl,
    selection_unknown_name_behavior.2 [sampleContainer] sampleVm
      "SCSI" "nope" "10" [] (by decide) (by decide) rfl⟩

/-- C6 counterexample: a vCPU entry that does not parse as an integer makes
the whole wizard return `ValueError` (even though enough further input is
available to finish a re-prompted run), and the main loop then terminates
the process with exit code 1 — the failure is not recovered by
re-prompting. -/
theorem numeric_parse_failure_cex :
    create_vm [sampleContainer] [sampleNetwork]
      ["web01", "two", "1", "4096", "Y", "N", "N", "Y"]
      = .error .valueError ∧
    main_loop_create_vm [sampleContainer] [sampleNetwork]
      ["web01", "two", "1", "4096", "Y", "N", "N", "Y"]
      = .exited 1 :=
  ⟨rfl, rfl⟩

/-- C6 (amended): a numeric parse failure at ANY of the three numeric
reads of the required-fields step (vCPUs, cores per vCPU, memory; each
read is reached once the earlier numeric entries parsed) is not caught
anywhere in the wizard: `int(...)` raises `ValueError`, which propagates
out of `create_vm` to the `try`/`except` of the main loop, which prints
it and exits the process with code 1; the step is never re-prompted. -/
theorem numeric_parse_failure_propagates :
    (∀ (containers : List Container) (networks : List Network)
        (vm_name s : String) (rest : List String),
      pyInt s = .error .valueError →
      create_vm containers networks (vm_name :: s :: rest)
          = .error .valueError ∧
        main_loop_create_vm containers networks (vm_name :: s :: rest)
          = .exited 1) ∧
    (∀ (containers : List Container) (networks : List Network)
        (vm_name vcpusStr : String) (v : Int) (s : String)
        (rest : List String),
      pyInt vcpusStr = .ok v → pyInt s = .error .valueError →
      create_vm containers networks (vm_name :: vcpusStr :: s :: rest)
          = .error .valueError ∧
        main_loop_create_vm containers networks
            (vm_name :: vcpusStr :: s :: rest)
          = .exited 1) ∧
    (∀ (containers : List Container) (networks : List Network)
        (vm_name vcpusStr : String) (v : Int) (coresStr : String) (c : Int)
        (s : String) (rest : List String),
      pyInt vcpusStr = .ok v → pyInt coresStr = .ok c →
      pyInt s = .error .valueError →
      create_vm containers networks
            (vm_name :: vcpusStr :: coresStr :: s :: rest)
          = .error .valueError ∧
        main_loop_create_vm containers networks
            (vm_name :: vcpusStr :: coresStr :: s :: rest)
          = .exited 1) := by
  refine ⟨?_, ?_, ?_⟩
  · intro containers networks vm_name s rest h
    have hreq : set_vm_required (vm_name :: s :: rest) = .error .valueError := by
      rw [set_vm_required.eq_def]
      simp [h]
    constructor
    · unfold create_vm
      rw [hreq]
    · unfold main_loop_create_vm create_vm
      rw [hreq]
  · intro containers networks vm_name vcpusStr v s rest hv h
    have hreq : set_vm_required (vm_name :: vcpusStr :: s :: rest)
        = .error .valueError := by
      rw [set_vm_required.eq_def]
      simp [hv, h]
    constructor
    · unfold create_vm
      rw [hreq]
    · unfold main_loop_create_vm create_vm
      rw [hreq]
  · intro containers networks vm_name vcpusStr v coresStr c s rest hv hc h
    have hreq : set_vm_required (vm_name :: vcpusStr :: coresStr :: s :: rest)
        = .error .valueError := by
      rw [set_vm_required.eq_def]
      simp [hv, hc, h]
    constructor
    · unfold create_vm
      rw [hreq]
    · unfold main_loop_create_vm create_vm
      rw [hreq]

/-- Witness for C6 (amended), exercising all three numeric reads: a parse
failure at the vCPUs entry (`"two"`), at the cores-per-vCPU entry
(`"one"`), and at the memory entry (`"lots"`). -/
theorem numeric_parse_failure_propagates_witness :
    pyInt "two" = .error .valueError ∧
    pyInt "one" = .error .valueError ∧
    pyInt "lots" = .error .valueError ∧
    pyInt "2" = .ok 2 ∧ pyInt "1" = .ok 1 ∧
    (create_vm [sampleContainer] [sampleNetwork]
        ["web01", "two", "1", "4096", "Y"] = .error .valueError ∧
      main_loop_create_vm [sampleContainer] [sampleNetwork]
        ["web01", "two", "1", "4096", "Y"] = .exited 1) ∧
    (create_vm [sampleContainer] [sampleNetwork]
        ["web01", "2", "one", "4096", "Y"] = .error .valueError ∧
      main_loop_create_vm [sampleContainer] [sampleNetwork]
        ["web01", "2", "one", "4096", "Y"] = .exited 1) ∧
    (create_vm [sampleContainer] [sampleNetwork]
        ["web01", "2", "1", "lots", "Y"] = .error .valueError ∧
      main_loop_create_vm [sampleContainer] [sampleNetwork]
        ["web01", "2", "1", "lots", "Y"] = .exited 1) :=
  ⟨rfl, rfl, rfl, rfl, rfl,
    numeric_parse_failure_propagates.1 [sampleContainer] [sampleNetwork]
      "web01" "two" ["1", "4096", "Y"] rfl,
    numeric_parse_failure_propagates.2.1 [sampleContainer] [sampleNetwork]
      "web01" "2" 2 "one" ["4096", "Y"] rfl rfl,
    numeric_parse_failure_propagates.2.2 [sampleContainer] [sampleNetwork]
      "web01" "2" 2 "1" 1 "lots" ["Y"] rfl rfl rfl⟩

/-- C7 counterexample: on a non-2xx status (500) with a parseable truthy
body, the submission code does NOT yield any submission error — it takes
the same success path as a 2xx response and prints a task line (here with
task id `None`, as the body has no `task_uuid`); the status code is never
inspected. -/
theorem sync_vm_status_ignored_cex :
    VmConfigModel.sync_vm sampleVm false 500
        (.ok (Json.obj [("error", Json.str "boom")]))
      = .taskPrinted ⟨POST, "vms", sampleVm.sync_vm_dto⟩ none ∧
    VmConfigModel.sync_vm sampleVm false 500
        (.ok (Json.obj [("error", Json.str "boom")]))
      = VmConfigModel.sync_vm sampleVm false 200
          (.ok (Json.obj [("error", Json.str "boom")])) :=
  ⟨rfl, rfl⟩

/-- C7 (amended): with the shipped `NO_CONN = true` no POST is issued at
all; in online mode the POST goes to `"vms"` with the serialized body, but
the returned status code is completely ignored (any two statuses behave
identically), a parse failure of the response body raises an exception
that propagates (crashing the wizard), and a truthy parsed body always
prints the `task_uuid` field as the task id; there is no submission-error
value and no retry. -/
theorem sync_vm_submit_behavior (m : VmConfigModel)
    (status status2 : Nat) (body : Except PyError Json) (e : PyError)
    (vms : Json) :
    VmConfigModel.sync_vm m NO_CONN status body = .noCall ∧
    VmConfigModel.sync_vm m false status body
      = VmConfigModel.sync_vm m false status2 body ∧
    VmConfigModel.sync_vm m false status (.error e)
      = .raised ⟨POST, "vms", m.sync_vm_dto⟩ e ∧
    (jsonTruthy vms = true →
      VmConfigModel.sync_vm m false status (.ok vms)
        = .taskPrinted ⟨POST, "vms", m.sync_vm_dto⟩
            (jsonObjLookup vms "task_uuid")) := by
  refine ⟨rfl, rfl, rfl, fun ht => ?_⟩
  simp [VmConfigModel.sync_vm, ht]

/-- Witness for C7 (amended) on a truthy body carrying `task_uuid`. -/
theorem sync_vm_submit_behavior_witness :
    jsonTruthy (Json.obj [("task_uuid", Json.str "t-1")]) = true ∧
    VmConfigModel.sync_vm sampleVm false 200
        (.ok (Json.obj [("task_uuid", Json.str "t-1")]))
      = .taskPrinted ⟨POST, "vms", sampleVm.sync_vm_dto⟩
          (some (Json.str "t-1")) :=
  ⟨rfl,
    (sync_vm_submit_behavior sampleVm 200 200
      (.ok (Json.obj [("task_uuid", Json.str "t-1")])) .valueError
      (Json.obj [("task_uuid", Json.str "t-1")])).2.2.2 rfl⟩

/-- C9 counterexample: a non-IDE disk appended with a user-entered size of
`"0"` carries `vm_disk_create` with byte size 0, which is not strictly
positive — positivity of the entered size is never validated. -/
theorem disk_size_zero_cex :
    add_vm_disk [sampleContainer] sampleVm ["SCSI", "Y", "ctr-1", "0", "Y"]
      = .ok (VmConfigModel.mk "web01" 2 1 4096
          [DiskSpec.mk false false false "SCSI" (some ⟨"c-uuid-1", 0⟩)] [],
          []) ∧
    ¬(0 : Int) < 0 :=
  ⟨rfl, by decide⟩

/-- C9 (amended): every non-IDE disk appended by the sub-wizard carries a
`vm_disk_create` entry whose byte size is `g * 1073741824` for the integer
`g` parsed from the user's size entry; this is strictly positive iff `g`
itself is positive (the code does not enforce positivity). -/
theorem disk_size_positivity_amended (containers : List Container)
    (m : VmConfigModel) (input : List String) (m2 : VmConfigModel)
    (rest : List String) (h : add_vm_disk containers m input = .ok (m2, rest)) :
    ∃ d : DiskSpec, m2.vm_disks = m.vm_disks ++ [d] ∧
      (d.device_bus ≠ "IDE" → ∃ cr g, d.vm_disk_create = some cr ∧
        cr.size = g * 1073741824 ∧ (0 < cr.size ↔ 0 < g)) := by
  unfold add_vm_disk at h
  split at h
  · simp at h
  · rename_i bus input1 hbus
    split at h
    · simp at h
    · rename_i o input2 hsel
      simp only [Except.ok.injEq, Prod.mk.injEq] at h
      obtain ⟨hm2, -⟩ := h
      subst hm2
      refine ⟨_, rfl, fun hb => ?_⟩
      simp only at hb
      obtain ⟨cname, c, g, -, ho⟩ := containerSelectLoop_ok hb hsel
      refine ⟨⟨c.storage_container_uuid, g * 1073741824⟩, g, ?_, rfl, ?_⟩
      · simp [hb, ho]
        ring
      · show (0 : Int) < g * 1073741824 ↔ 0 < g
        constructor
        · intro hpos
          by_contra hng
          push_neg at hng
          nlinarith
        · intro hpos
          nlinarith

/-- Witness for C9 (amended): the 50 GB SCSI disk,
size `50 * 1073741824 = 53687091200 > 0`. -/
theorem disk_size_positivity_amended_witness :
    ∃ d : DiskSpec,
      (VmConfigModel.mk "web01" 2 1 4096
          [DiskSpec.mk false false false "SCSI"
            (some ⟨"c-uuid-1", 53687091200⟩)] []).vm_disks
        = sampleVm.vm_disks ++ [d] ∧
      (d.device_bus ≠ "IDE" → ∃ cr g, d.vm_disk_create = some cr ∧
        cr.size = g * 1073741824 ∧ (0 < cr.size ↔ 0 < g)) :=
  disk_size_positivity_amended [sampleContainer] sampleVm
    ["SCSI", "Y", "ctr-1", "50", "Y"]
    (VmConfigModel.mk "web01" 2 1 4096
      [DiskSpec.mk false false false "SCSI" (some ⟨"c-uuid-1", 53687091200⟩)]
      []) [] rfl

end NtnxREST
